import Mathlib

/-!
Shallow embedding of the Skew-T Log-P rendering core of the PG-Weather
repository (`skewt.js` and `app.js`).

Modelling conventions:
* A JavaScript number that may be `NaN` is modelled as `JNum := Option ℚ`
  with `none` playing the role of `NaN`; arithmetic propagates `NaN` and
  every comparison against `NaN` is false, exactly as in JavaScript.
* Finite doubles are modelled exactly as rationals; the transcendental
  operations `Math.pow` and `Math.log` are modelled over `ℝ` with
  `Real.rpow` and `Real.log`.
* A thrown `TypeError` is modelled by an outer `Option` being `none`.
* Canvas side effects carry no data; `draw` is modelled as the sequence of
  drawing phases it executes together with its effect on the diagram state.
-/

set_option maxRecDepth 4000

/-- A JavaScript number that may be `NaN` (`none`). -/
abbrev JNum := Option ℚ

/-- JavaScript addition: `NaN` propagates. -/
def jadd : JNum → JNum → JNum
  | some a, some b => some (a + b)
  | _, _ => none

/-- JavaScript subtraction: `NaN` propagates. -/
def jsub : JNum → JNum → JNum
  | some a, some b => some (a - b)
  | _, _ => none

/-- JavaScript multiplication: `NaN` propagates. -/
def jmul : JNum → JNum → JNum
  | some a, some b => some (a * b)
  | _, _ => none

/-- JavaScript division as used in this code base: `NaN` propagates and a
zero denominator yields `NaN`.  (The sources only ever divide by zero with a
zero numerator, and `0/0` is `NaN` in JavaScript.) -/
def jdiv : JNum → JNum → JNum
  | some a, some b => if b = 0 then none else some (a / b)
  | _, _ => none

/-- `Math.abs`: `NaN` propagates. -/
def jabs : JNum → JNum
  | some a => some |a|
  | none => none

/-- `Math.min`: `NaN` absorbs. -/
def jmin : JNum → JNum → JNum
  | some a, some b => some (min a b)
  | _, _ => none

/-- `Math.max`: `NaN` absorbs. -/
def jmax : JNum → JNum → JNum
  | some a, some b => some (max a b)
  | _, _ => none

/-- JavaScript `<`: false when either side is `NaN`. -/
def jlt : JNum → JNum → Bool
  | some a, some b => decide (a < b)
  | _, _ => false

/-- JavaScript `<=`: false when either side is `NaN`. -/
def jle : JNum → JNum → Bool
  | some a, some b => decide (a ≤ b)
  | _, _ => false

/-- JavaScript `>`: false when either side is `NaN`. -/
def jgt : JNum → JNum → Bool
  | some a, some b => decide (b < a)
  | _, _ => false

/-- JavaScript `>=`: false when either side is `NaN`. -/
def jge : JNum → JNum → Bool
  | some a, some b => decide (b ≤ a)
  | _, _ => false

/-- One parsed sounding row (`dataParser.js` `parseRow`), restricted to the
six fields consumed by the rendering core and the hover interpolator.  Any
field may be `NaN` (missing sensor data). -/
structure Level where
  pressure : JNum
  height : JNum
  temp : JNum
  dewpoint : JNum
  windSpeed : JNum
  windDir : JNum
deriving DecidableEq

/-- The record built by `SoundingApp.interpolateDataAtHeight` from a
bracketing pair `lower`, `upper`: every attribute is interpolated by the
height ratio `(targetHeight - lower.height) / (upper.height - lower.height)`. -/
def mkInterp (lower upper : Level) (targetHeight : ℚ) : Level :=
  let frac := jdiv (jsub (some targetHeight) lower.height) (jsub upper.height lower.height)
  { height := some targetHeight
    pressure := jadd lower.pressure (jmul frac (jsub upper.pressure lower.pressure))
    temp := jadd lower.temp (jmul frac (jsub upper.temp lower.temp))
    dewpoint := jadd lower.dewpoint (jmul frac (jsub upper.dewpoint lower.dewpoint))
    windSpeed := jadd lower.windSpeed (jmul frac (jsub upper.windSpeed lower.windSpeed))
    windDir := jadd lower.windDir (jmul frac (jsub upper.windDir lower.windDir)) }

/-- Guard of the bracketing scan in `interpolateDataAtHeight`:
`targetHeight >= Math.min(h1,h2) && targetHeight <= Math.max(h1,h2)`. -/
def heightBracketGuard (lower upper : Level) (targetHeight : ℚ) : Bool :=
  jge (some targetHeight) (jmin lower.height upper.height) &&
    jle (some targetHeight) (jmax lower.height upper.height)

/-- The bracketing-pair loop of `interpolateDataAtHeight`: the first adjacent
pair whose (order-agnostic) height interval contains the target is used. -/
def interpScan : List Level → ℚ → Option Level
  | lower :: upper :: rest, targetHeight =>
      if heightBracketGuard lower upper targetHeight then
        some (mkInterp lower upper targetHeight)
      else interpScan (upper :: rest) targetHeight
  | _, _ => none

/-- The first adjacent pair accepted by the bracketing scan. -/
def firstBracket : List Level → ℚ → Option (Level × Level)
  | lower :: upper :: rest, targetHeight =>
      if heightBracketGuard lower upper targetHeight then some (lower, upper)
      else firstBracket (upper :: rest) targetHeight
  | _, _ => none

/-- `distance < minDistance` in the closest-point fallback, where
`minDistance` starts at `Infinity` (modelled by `none` in its own right):
false when `distance` is `NaN`, true against `Infinity`. -/
def jltInf : JNum → Option ℚ → Bool
  | none, _ => false
  | some _, none => true
  | some d, some m => decide (d < m)

/-- One step of the closest-Level fallback of `interpolateDataAtHeight`.
The accumulator is `(closest, minDistance)` with `minDistance = none`
standing for the initial `Infinity` (it is only ever replaced by a non-`NaN`
distance). -/
def closestStep (targetHeight : ℚ) (acc : Option Level × Option ℚ) (row : Level) :
    Option Level × Option ℚ :=
  let distance := jabs (jsub row.height (some targetHeight))
  if jltInf distance acc.2 then (some row, distance) else acc

/-- `SoundingApp.interpolateDataAtHeight`: scan for a bracketing pair and
interpolate; otherwise fall back to the closest Level by height distance
(`null` result modelled as `none`). -/
def interpolateDataAtHeight (data : List Level) (targetHeight : ℚ) : Option Level :=
  match interpScan data targetHeight with
  | some lvl => some lvl
  | none => (data.foldl (closestStep targetHeight) (none, none)).1

/-- The mutable per-instance state of `SkewTDiagram`: margins and plot size
fixed at construction, view bounds, and the stored sounding reference
(`none` models both a `null` reference and an object without a `data`
array, the two cases in which `pressureToHeight` takes its fallback). -/
structure SkewT where
  marginTop : ℚ
  marginRight : ℚ
  marginBottom : ℚ
  marginLeft : ℚ
  width : ℚ
  height : ℚ
  pMin : ℚ
  pMax : ℚ
  hMin : ℚ
  hMax : ℚ
  tMin : ℚ
  tMax : ℚ
  skew : ℚ
  soundingData : Option (List Level)
deriving DecidableEq

/-- The `SkewTDiagram` constructor for a canvas of the given size. -/
def SkewT.init (canvasWidth canvasHeight : ℚ) : SkewT :=
  { marginTop := 50, marginRight := 150, marginBottom := 50, marginLeft := 100
    width := canvasWidth - 100 - 150
    height := canvasHeight - 50 - 50
    pMin := 100, pMax := 1050
    hMin := 0, hMax := 4500
    tMin := -60, tMax := 50
    skew := 35
    soundingData := none }

/-- `SkewTDiagram.setHeightRange`: overwrite the height bounds, with no
validation of the arguments. -/
def setHeightRange (s : SkewT) (minHeight maxHeight : ℚ) : SkewT :=
  { s with hMin := minHeight, hMax := maxHeight }

/-- Guard of the bracketing loop in `pressureToHeight`:
`data[i].pressure >= p && data[i+1].pressure <= p`. -/
def pressureBracketGuard (a b : Level) (p : ℚ) : Bool :=
  jge a.pressure (some p) && jle b.pressure (some p)

/-- The bracketing loop of `pressureToHeight`: on the first adjacent pair
whose pressures bracket `p`, interpolate the height linearly in pressure. -/
def bracketScanP : List Level → ℚ → Option JNum
  | a :: b :: rest, p =>
      if pressureBracketGuard a b p then
        some (jadd a.height
          (jmul (jdiv (jsub (some p) a.pressure) (jsub b.pressure a.pressure))
            (jsub b.height a.height)))
      else bracketScanP (b :: rest) p
  | _, _ => none

/-- The first adjacent pair accepted by the pressure bracketing loop. -/
def firstBracketP : List Level → ℚ → Option (Level × Level)
  | a :: b :: rest, p =>
      if pressureBracketGuard a b p then some (a, b)
      else firstBracketP (b :: rest) p
  | _, _ => none

/-- The data path of `SkewTDiagram.pressureToHeight` (a Profile is loaded):
bracketing interpolation, then clamping to the nearest endpoint, then the
final `return 0`.  The outer `none` models the `TypeError` thrown by
`data[0].pressure` when the stored `data` array is empty. -/
def pressureToHeightData (data : List Level) (p : ℚ) : Option JNum :=
  match bracketScanP data p with
  | some h => some h
  | none =>
      match data with
      | [] => none
      | first :: rest =>
          let last := (first :: rest).getLast (List.cons_ne_nil _ _)
          if jge (some p) first.pressure then some first.height
          else if jle (some p) last.pressure then some last.height
          else some (some 0)

/-- Check that the pressure column is strictly descending (every value
present and each adjacent pair decreasing), the order `pressureToHeight`'s
bracket search is written for. -/
def pressuresDescending : List Level → Bool
  | a :: b :: rest =>
      (match a.pressure, b.pressure with
       | some x, some y => decide (y < x)
       | _, _ => false) && pressuresDescending (b :: rest)
  | _ => true

/-- A Level whose pressure and height are given and whose remaining fields
are present but zero; used for concrete test profiles. -/
def exampleLevel (p h : ℚ) : Level :=
  { pressure := some p, height := some h, temp := some 0, dewpoint := some 0,
    windSpeed := some 0, windDir := some 0 }

/-- The three-level Profile `[(1000hPa,0m),(850hPa,1500m),(700hPa,3000m)]`
used by the specification's worked example. -/
def example3 : List Level := [exampleLevel 1000 0, exampleLevel 850 1500, exampleLevel 700 3000]

/-- `SkewTDiagram.heightToY`: linear map of height onto the vertical axis,
inverted.  `NaN` heights give `NaN` coordinates.  The precondition
`hMin < hMax` (enforced one layer up by the zoom validation) rules out the
zero denominator, which this real-valued model does not reproduce. -/
noncomputable def heightToY (s : SkewT) (h : Option ℝ) : Option ℝ :=
  h.map fun hv => (s.marginTop : ℝ) + (s.height : ℝ) *
    (1 - (hv - (s.hMin : ℝ)) / ((s.hMax : ℝ) - (s.hMin : ℝ)))

/-- `SkewTDiagram.pressureToHeight`.  With no stored sounding (or one whose
`data` field is missing) it falls back to the international barometric
formula `44330 * (1 - Math.pow(p / 1013.25, 0.1903))`; with a stored
sounding it runs the data path `pressureToHeightData`, whose outer `none`
models the `TypeError` thrown on an empty `data` array. -/
noncomputable def pressureToHeight (s : SkewT) (p : ℚ) : Option (Option ℝ) :=
  match s.soundingData with
  | none => some (some (44330 * (1 - ((p : ℝ) / 1013.25) ^ (0.1903 : ℝ))))
  | some data => (pressureToHeightData data p).map (Option.map fun q : ℚ => (q : ℝ))

/-- `SkewTDiagram.pressureToY`: convert to height, then to a y coordinate.
A `TypeError` in `pressureToHeight` propagates. -/
noncomputable def pressureToY (s : SkewT) (p : ℚ) : Option (Option ℝ) :=
  match pressureToHeight s p with
  | none => none
  | some h => some (heightToY s h)

/-- The skew term of `SkewTDiagram.tempToX`:
`skew * (Math.log(pMax) - Math.log(p))`. -/
noncomputable def skewOffset (s : SkewT) (p : ℚ) : ℝ :=
  (s.skew : ℝ) * (Real.log (s.pMax : ℝ) - Real.log (p : ℝ))

/-- `SkewTDiagram.tempToX`: linear temperature map plus the skew term. -/
noncomputable def tempToX (s : SkewT) (t p : ℚ) : ℝ :=
  (s.marginLeft : ℝ) + (s.width : ℝ) * (((t : ℝ) - (s.tMin : ℝ)) / ((s.tMax : ℝ) - (s.tMin : ℝ)))
    + skewOffset s p

/-- The Levels of `data` that contribute a vertex to the temperature
polyline of `drawTemperatureProfile`: a row is skipped when its temperature
is `NaN`, its pressure lies outside `[pMin, pMax]`, or its height lies
outside `[hMin, hMax]` (comparisons against `NaN` are false, so a `NaN`
pressure or height does not trigger the bounds skips).  The vertex placed
for a kept row is `(tempToX row.temp row.pressure, heightToY row.height)`;
only the kept-row list matters to the claims, so the projection to
coordinates is not materialised here. -/
def tempVertexRows (s : SkewT) (data : List Level) : List Level :=
  data.filter fun row =>
    !(row.temp.isNone || jlt row.pressure (some s.pMin) || jgt row.pressure (some s.pMax)) &&
      !(jlt row.height (some s.hMin) || jgt row.height (some s.hMax))

/-- Same for the dewpoint polyline of `drawDewpointProfile`. -/
def dewpointVertexRows (s : SkewT) (data : List Level) : List Level :=
  data.filter fun row =>
    !(row.dewpoint.isNone || jlt row.pressure (some s.pMin) || jgt row.pressure (some s.pMax)) &&
      !(jlt row.height (some s.hMin) || jgt row.height (some s.hMax))

/-- One vector primitive emitted by `drawWindBarb`.  The geometric placement
along the staff (angles via `Math.sin`/`Math.cos`) is presentation only and
is not modelled; the glyph structure and emission order are. -/
inductive BarbPrim where
  | circle (radius : ℚ)
  | staff (len : ℚ)
  | pennant
  | fullBarb
  | halfBarb
deriving DecidableEq

/-- The pennant loop of `drawWindBarb`:
`while (currentSpeed >= 47.5) { emit pennant; currentSpeed -= 50; }`,
expressed with explicit fuel (`drawWindBarb` passes provably sufficient
fuel).  Returns the emitted pennants and the remaining speed. -/
def pennantLoop : ℕ → ℚ → List BarbPrim × ℚ
  | 0, currentSpeed => ([], currentSpeed)
  | fuel + 1, currentSpeed =>
      if 47.5 ≤ currentSpeed then
        let rest := pennantLoop fuel (currentSpeed - 50)
        (BarbPrim.pennant :: rest.1, rest.2)
      else ([], currentSpeed)

/-- The full-barb loop of `drawWindBarb`:
`while (currentSpeed >= 7.5) { emit full barb; currentSpeed -= 10; }`. -/
def fullBarbLoop : ℕ → ℚ → List BarbPrim × ℚ
  | 0, currentSpeed => ([], currentSpeed)
  | fuel + 1, currentSpeed =>
      if 7.5 ≤ currentSpeed then
        let rest := fullBarbLoop fuel (currentSpeed - 10)
        (BarbPrim.fullBarb :: rest.1, rest.2)
      else ([], currentSpeed)

/-- `SkewTDiagram.drawWindBarb` as the ordered list of primitives it emits.
Speed is converted to km/h (`speedKmh = speedMS * 3.6`); below 2.5 km/h a
calm circle of radius 4 is the whole glyph; otherwise a staff of length 30,
then pennants, then full barbs, then at most one half barb.  The anchor
`x`, `y` and `direction` only influence the unmodelled geometry. -/
def drawWindBarb (x y direction speedMS : ℚ) : List BarbPrim :=
  let speedKmh := speedMS * 3.6
  if speedKmh < 2.5 then [BarbPrim.circle 4]
  else
    let fuel := (⌈speedKmh⌉).toNat
    let pens := pennantLoop fuel speedKmh
    let fulls := fullBarbLoop fuel pens.2
    let halfs := if 2.5 ≤ fulls.2 then [BarbPrim.halfBarb] else []
    BarbPrim.staff 30 :: (pens.1 ++ fulls.1 ++ halfs)

/-- An ascending `for` loop `for (v = start; v <= stop; v += step)` emitting
its loop variable, with fuel bounding the iteration count. -/
def forLoopUp : ℕ → ℚ → ℚ → ℚ → List ℚ
  | 0, _, _, _ => []
  | fuel + 1, v, stop, step => if v ≤ stop then v :: forLoopUp fuel (v + step) stop step else []

/-- A descending `for` loop `for (v = start; v >= stop; v -= step)` emitting
its loop variable, with fuel bounding the iteration count. -/
def forLoopDown : ℕ → ℚ → ℚ → ℚ → List ℚ
  | 0, _, _, _ => []
  | fuel + 1, v, stop, step => if stop ≤ v then v :: forLoopDown fuel (v - step) stop step else []

/-- `drawIsotherms` loop: `for (let t = -100; t <= 50; t += 10)`. -/
def isothermTemps : List ℚ := forLoopUp 100 (-100) 50 10

/-- `drawDryAdiabats` outer loop: `for (let theta = 200; theta <= 500; theta += 10)`. -/
def dryThetas : List ℚ := forLoopUp 100 200 500 10

/-- `drawMoistAdiabats` outer loop: `for (let thetaE = 280; thetaE <= 380; thetaE += 10)`. -/
def moistThetaEs : List ℚ := forLoopUp 100 280 380 10

/-- `drawMixingRatioLines` parameter list. -/
def mixingRatios : List ℚ := [0.5, 1, 2, 4, 8, 16, 32]

/-- Major isobars of `drawPressureLines`. -/
def majorPressures : List ℚ := [1000, 925, 850, 700, 500, 400, 300, 250, 200, 150, 100]

/-- Minor isobars of `drawPressureLines`. -/
def minorPressures : List ℚ :=
  [975, 950, 900, 875, 825, 800, 775, 750, 725, 675, 650, 625, 600, 575, 550, 525,
   475, 450, 425, 375, 350, 325, 275, 225, 175, 125]

/-- Pressure sweep of the adiabat generators:
`for (let p = this.pMax; p >= this.pMin; p -= 5)`.  The fuel is provably
sufficient to run the loop until its guard fails. -/
def adiabatPressureSamples (s : SkewT) : List ℚ :=
  forLoopDown ((⌈s.pMax - s.pMin⌉).toNat + 1) s.pMax s.pMin 5

/-- Pressure sweep of the mixing-ratio generator:
`for (let p = this.pMax; p >= 600; p -= 10)`. -/
def mixingPressureSamples (s : SkewT) : List ℚ :=
  forLoopDown ((⌈s.pMax - 600⌉).toNat + 1) s.pMax 600 10

/-- Poisson temperature of a dry adiabat:
`theta * Math.pow(p / 1000, 0.286) - 273.15`. -/
noncomputable def dryAdiabatTemp (theta p : ℚ) : ℝ :=
  (theta : ℝ) * ((p : ℝ) / 1000) ^ (0.286 : ℝ) - 273.15

/-- Simplified pseudo-adiabat temperature of `drawMoistAdiabats`:
`thetaE * Math.pow(p / 1000, 0.286) - 273.15 - (1050 - p) * 0.02`. -/
noncomputable def moistAdiabatTemp (thetaE p : ℚ) : ℝ :=
  (thetaE : ℝ) * ((p : ℝ) / 1000) ^ (0.286 : ℝ) - 273.15 - (1050 - (p : ℝ)) * 0.02

/-- Dewpoint of a mixing-ratio line in `drawMixingRatioLines`: vapor
pressure `e = w*p/(621.97+w)`, then the inverted Magnus formula. -/
noncomputable def mixingRatioDewpoint (w p : ℚ) : ℝ :=
  let e : ℝ := (w : ℝ) * (p : ℝ) / (621.97 + (w : ℝ))
  243.5 * Real.log (e / 6.112) / (17.67 - Real.log (e / 6.112))

open Classical in
/-- The `(T, p)` samples of one dry adiabat that survive the tolerance skip
`if (t < this.tMin - 20 || t > this.tMax + 40) continue;` — skipped samples
contribute nothing (they are not clamped).  Projection of a surviving
sample to canvas coordinates is `(tempToX t p, pressureToY p)`. -/
noncomputable def dryAdiabatCurve (s : SkewT) (theta : ℚ) : List (ℝ × ℚ) :=
  (adiabatPressureSamples s).filterMap fun p =>
    let t := dryAdiabatTemp theta p
    if t < (s.tMin : ℝ) - 20 ∨ t > (s.tMax : ℝ) + 40 then none else some (t, p)

/-- The phases `SkewTDiagram.draw` executes, in order. -/
inductive DrawPhase where
  | background
  | heightAxis
  | pressureLines
  | isotherms
  | dryAdiabats
  | moistAdiabats
  | mixingRatioLines
  | border
  | temperatureProfile
  | dewpointProfile
  | windBarbs
  | title
deriving DecidableEq

/-- Whether a call `pressureToHeight(p)` throws in state `s`: only when a
sounding with an empty `data` array is stored (`data[0].pressure` on
`undefined`). -/
def pressureToHeightThrows (s : SkewT) (p : ℚ) : Bool :=
  match s.soundingData with
  | none => false
  | some data => (pressureToHeightData data p).isNone

/-- Whether the isobar phase throws: it calls `pressureToHeight(p)` for
every listed pressure inside `[pMin, pMax]`. -/
def pressureLinesThrows (s : SkewT) : Bool :=
  (majorPressures ++ minorPressures).any fun p =>
    !(decide (p < s.pMin) || decide (s.pMax < p)) && pressureToHeightThrows s p

/-- Whether the isotherm phase throws: every isotherm that survives the
`t < tMin - 20 || t > tMax + 20` skip calls `pressureToY(pMax)` and
`pressureToY(pMin)`. -/
def isothermsThrows (s : SkewT) : Bool :=
  isothermTemps.any fun t =>
    !(decide (t < s.tMin - 20) || decide (s.tMax + 20 < t)) &&
      (pressureToHeightThrows s s.pMax || pressureToHeightThrows s s.pMin)

open Classical in
/-- Whether the dry-adiabat phase throws: `pressureToY(p)` is called for
every sample surviving the temperature tolerance skip. -/
noncomputable def dryAdiabatsThrows (s : SkewT) : Bool :=
  decide (∃ theta ∈ dryThetas, ∃ p ∈ adiabatPressureSamples s,
    ¬(dryAdiabatTemp theta p < (s.tMin : ℝ) - 20 ∨ (s.tMax : ℝ) + 40 < dryAdiabatTemp theta p) ∧
      pressureToHeightThrows s p = true)

open Classical in
/-- Whether the moist-adiabat phase throws. -/
noncomputable def moistAdiabatsThrows (s : SkewT) : Bool :=
  decide (∃ thetaE ∈ moistThetaEs, ∃ p ∈ adiabatPressureSamples s,
    ¬(moistAdiabatTemp thetaE p < (s.tMin : ℝ) - 20 ∨ (s.tMax : ℝ) + 40 < moistAdiabatTemp thetaE p) ∧
      pressureToHeightThrows s p = true)

open Classical in
/-- Whether the mixing-ratio phase throws (`pressureToY(p)` is computed
before the horizontal clipping test, so only the dewpoint tolerance skip
guards the call). -/
noncomputable def mixingRatioLinesThrows (s : SkewT) : Bool :=
  decide (∃ w ∈ mixingRatios, ∃ p ∈ mixingPressureSamples s,
    ¬(mixingRatioDewpoint w p < (s.tMin : ℝ) - 20 ∨ (s.tMax : ℝ) + 20 < mixingRatioDewpoint w p) ∧
      pressureToHeightThrows s p = true)

/-- Run a list of draw phases in order; a phase that throws aborts the draw,
keeping the phases already completed. -/
def attemptPhases : List (DrawPhase × Bool) → List DrawPhase × Bool
  | [] => ([], false)
  | (ph, thrown) :: rest =>
      match thrown with
      | true => ([], true)
      | false =>
          let r := attemptPhases rest
          (ph :: r.1, r.2)

/-- `SkewTDiagram.draw` as a state transformer: it first stores the sounding
reference (its only state mutation), then executes its phases in order; the
profile phases run only when the stored sounding has at least one row.  The
result records the new state, the completed phases, and whether a
`TypeError` escaped the draw. -/
noncomputable def drawRun (s : SkewT) (soundingData : Option (List Level)) :
    SkewT × (List DrawPhase × Bool) :=
  let s' := { s with soundingData := soundingData }
  let hasData : Bool :=
    match soundingData with
    | some data => decide (0 < data.length)
    | none => false
  let phases : List (DrawPhase × Bool) :=
    [(DrawPhase.background, false), (DrawPhase.heightAxis, false),
     (DrawPhase.pressureLines, pressureLinesThrows s'),
     (DrawPhase.isotherms, isothermsThrows s'),
     (DrawPhase.dryAdiabats, dryAdiabatsThrows s'),
     (DrawPhase.moistAdiabats, moistAdiabatsThrows s'),
     (DrawPhase.mixingRatioLines, mixingRatioLinesThrows s'),
     (DrawPhase.border, false)] ++
    (if hasData then
      [(DrawPhase.temperatureProfile, false), (DrawPhase.dewpointProfile, false),
       (DrawPhase.windBarbs, false)]
     else []) ++
    [(DrawPhase.title, false)]
  (s', attemptPhases phases)

/-- Claim C1 (refuted, code bug): a Profile with zero Levels does not
degrade gracefully.  The stored empty `data` array is truthy, so
`pressureToHeight` skips its no-profile fallback, runs zero loop
iterations, and then evaluates `data[0].pressure` on `undefined`, throwing
a `TypeError`.  During `draw` this happens in the isobar phase (at the
first listed pressure inside `[pMin, pMax]`, here 1000 hPa): only the
background and the height axis complete, the reference-curve families and
border are never drawn, and the exception escapes `draw` — contrary to the
claim that the frame is rendered and that no core operation throws. -/
theorem C1_empty_profile_draw_throws :
    pressureToHeightData [] 1000 = none ∧
    drawRun (SkewT.init 800 600) (some []) =
      ({ SkewT.init 800 600 with soundingData := some [] },
        ([DrawPhase.background, DrawPhase.heightAxis], true)) := by
  constructor
  · rfl
  · norm_num [drawRun, attemptPhases, pressureLinesThrows, pressureToHeightThrows,
      majorPressures, minorPressures, pressureToHeightData, bracketScanP, SkewT.init]

/-- Claim C9: for every state and every pressure `p`, `pressureToY p` is
exactly the composition of `heightToY` after `pressureToHeight` (including
the fallback and thrown cases, which both sides share). -/
theorem C9_pressureToY_is_composition (s : SkewT) (p : ℚ) :
    pressureToY s p = (pressureToHeight s p).map (heightToY s) := by
  unfold pressureToY
  cases pressureToHeight s p <;> rfl

/-- Claim C10: `setHeightRange` overwrites exactly `hMin` and `hMax`,
accepting any arguments without validation, and `draw` changes only the
stored sounding reference; pressure bounds, temperature bounds, skew and
the margin layout survive both calls. -/
theorem C10_frame_conditions (s : SkewT) (a b : ℚ) (sd : Option (List Level)) :
    (setHeightRange s a b).hMin = a ∧ (setHeightRange s a b).hMax = b ∧
    (setHeightRange s a b).pMin = s.pMin ∧ (setHeightRange s a b).pMax = s.pMax ∧
    (setHeightRange s a b).tMin = s.tMin ∧ (setHeightRange s a b).tMax = s.tMax ∧
    (setHeightRange s a b).skew = s.skew ∧
    (setHeightRange s a b).marginTop = s.marginTop ∧
    (setHeightRange s a b).marginRight = s.marginRight ∧
    (setHeightRange s a b).marginBottom = s.marginBottom ∧
    (setHeightRange s a b).marginLeft = s.marginLeft ∧
    (setHeightRange s a b).width = s.width ∧
    (setHeightRange s a b).height = s.height ∧
    (setHeightRange s a b).soundingData = s.soundingData ∧
    (drawRun s sd).1 = { s with soundingData := sd } :=
  ⟨rfl, rfl, rfl, rfl, rfl, rfl, rfl, rfl, rfl, rfl, rfl, rfl, rfl, rfl, rfl⟩

/-- Claim C7: at `p = pMax` the skew offset is `skew * (log pMax - log pMax)
= 0`, so `tempToX t pMax` is the plain linear temperature map for every
state; and for `0 < p < pMax` the skew offset is strictly positive whenever
`skew > 0`. -/
theorem C7_tempToX_skew (s : SkewT) (t p : ℚ) :
    tempToX s t s.pMax =
      (s.marginLeft : ℝ) +
        (s.width : ℝ) * (((t : ℝ) - (s.tMin : ℝ)) / ((s.tMax : ℝ) - (s.tMin : ℝ))) ∧
    (0 < p → p < s.pMax → 0 < s.skew → 0 < skewOffset s p) := by
  constructor
  · unfold tempToX skewOffset
    ring
  · intro hp hlt hskew
    unfold skewOffset
    have h1 : Real.log (p : ℝ) < Real.log (s.pMax : ℝ) := by
      apply Real.log_lt_log
      · exact_mod_cast hp
      · exact_mod_cast hlt
    have h2 : (0 : ℝ) < (s.skew : ℝ) := by exact_mod_cast hskew
    exact mul_pos h2 (sub_pos.mpr h1)

theorem c7pos : (0 : ℚ) < 500 := by norm_num

theorem c7lt : (500 : ℚ) < (SkewT.init 800 600).pMax := by norm_num [SkewT.init]

theorem c7skew : (0 : ℚ) < (SkewT.init 800 600).skew := by norm_num [SkewT.init]

/-- Witness for C7: the default view with `p = 500 hPa` satisfies the
hypotheses, and the theorem yields a strictly positive skew offset there. -/
theorem C7_tempToX_skew_witness :
    (0 : ℚ) < 500 ∧ (500 : ℚ) < (SkewT.init 800 600).pMax ∧
    (0 : ℚ) < (SkewT.init 800 600).skew ∧
    0 < skewOffset (SkewT.init 800 600) 500 :=
  ⟨c7pos, c7lt, c7skew, (C7_tempToX_skew (SkewT.init 800 600) 20 500).2 c7pos c7lt c7skew⟩

theorem bracketScanP_eq (data : List Level) (p : ℚ) :
    bracketScanP data p = (firstBracketP data p).map fun pr =>
      jadd pr.1.height
        (jmul (jdiv (jsub (some p) pr.1.pressure) (jsub pr.2.pressure pr.1.pressure))
          (jsub pr.2.height pr.1.height)) := by
  induction data with
  | nil => rfl
  | cons a rest ih =>
    cases rest with
    | nil => rfl
    | cons b rest2 =>
      cases hg : pressureBracketGuard a b p <;>
        simp [bracketScanP, firstBracketP, hg, ih]

theorem pressuresDescending_tail {a : Level} {rest : List Level}
    (h : pressuresDescending (a :: rest) = true) : pressuresDescending rest = true := by
  cases rest with
  | nil => rfl
  | cons b r2 =>
    rw [pressuresDescending, Bool.and_eq_true] at h
    exact h.2

theorem pressuresDescending_head {a b : Level} {rest : List Level}
    (h : pressuresDescending (a :: b :: rest) = true) :
    ∃ x y, a.pressure = some x ∧ b.pressure = some y ∧ y < x := by
  rw [pressuresDescending, Bool.and_eq_true] at h
  have h1 := h.1
  cases hx : a.pressure with
  | none => rw [hx] at h1; simp at h1
  | some x =>
    cases hy : b.pressure with
    | none => rw [hx, hy] at h1; simp at h1
    | some y =>
      rw [hx, hy] at h1
      simp only [decide_eq_true_eq] at h1
      exact ⟨x, y, rfl, rfl, h1⟩

theorem descending_le_head : ∀ (data : List Level) (a : Level) (x : ℚ),
    pressuresDescending (a :: data) = true → a.pressure = some x →
    ∀ b ∈ a :: data, ∃ y, b.pressure = some y ∧ y ≤ x := by
  intro data
  induction data with
  | nil =>
    intro a x _ hx b hb
    rw [List.mem_singleton] at hb
    subst hb
    exact ⟨x, hx, le_refl x⟩
  | cons c rest ih =>
    intro a x h hx b hb
    obtain ⟨x', y', hx', hy', hlt⟩ := pressuresDescending_head h
    have hxx : x' = x := by rw [hx] at hx'; exact (Option.some.inj hx').symm
    subst hxx
    rcases List.mem_cons.mp hb with rfl | hb'
    · exact ⟨x', hx, le_refl x'⟩
    · obtain ⟨y, hy, hyx⟩ := ih c y' (pressuresDescending_tail h) hy' b hb'
      exact ⟨y, hy, le_trans hyx (le_of_lt hlt)⟩

theorem descending_ge_last : ∀ (data : List Level) (h : data ≠ []) (z : ℚ),
    pressuresDescending data = true → (data.getLast h).pressure = some z →
    ∀ b ∈ data, ∃ y, b.pressure = some y ∧ z ≤ y := by
  intro data
  induction data with
  | nil => intro h; exact absurd rfl h
  | cons a rest ih =>
    intro h z hdesc hlast b hb
    cases rest with
    | nil =>
      rw [List.mem_singleton] at hb
      subst hb
      exact ⟨z, hlast, le_refl z⟩
    | cons c r2 =>
      rw [List.getLast_cons (List.cons_ne_nil c r2)] at hlast
      obtain ⟨x', y', hx', hy', hlt⟩ := pressuresDescending_head hdesc
      have htail := pressuresDescending_tail hdesc
      rcases List.mem_cons.mp hb with rfl | hb'
      · obtain ⟨yc, hyc, hzyc⟩ :=
          ih (List.cons_ne_nil c r2) z htail hlast c (List.mem_cons_self c r2)
        have : yc = y' := by rw [hy'] at hyc; exact (Option.some.inj hyc).symm
        subst this
        exact ⟨x', hx', le_of_lt (lt_of_le_of_lt hzyc hlt)⟩
      · exact ih (List.cons_ne_nil c r2) z htail hlast b hb'

theorem firstBracketP_none_of_lt : ∀ (data : List Level) (p : ℚ),
    (∀ b ∈ data, ∃ y, b.pressure = some y ∧ y < p) → firstBracketP data p = none := by
  intro data
  induction data with
  | nil => intro p _; rfl
  | cons a rest ih =>
    intro p hall
    cases rest with
    | nil => rfl
    | cons b r2 =>
      obtain ⟨ya, hya, hlt⟩ := hall a (List.mem_cons_self a _)
      have hguard : pressureBracketGuard a b p = false := by
        unfold pressureBracketGuard
        rw [hya]
        simp [jge, not_le.mpr hlt]
      rw [firstBracketP, hguard]
      simp only [Bool.false_eq_true, if_false]
      exact ih p fun b' hb' => hall b' (List.mem_cons_of_mem a hb')

theorem firstBracketP_none_of_gt : ∀ (data : List Level) (p : ℚ),
    (∀ b ∈ data, ∃ y, b.pressure = some y ∧ p < y) → firstBracketP data p = none := by
  intro data
  induction data with
  | nil => intro p _; rfl
  | cons a rest ih =>
    intro p hall
    cases rest with
    | nil => rfl
    | cons b r2 =>
      obtain ⟨yb, hyb, hlt⟩ :=
        hall b (List.mem_cons_of_mem a (List.mem_cons_self b r2))
      have hguard : pressureBracketGuard a b p = false := by
        unfold pressureBracketGuard
        rw [hyb]
        simp [jle, not_le.mpr hlt]
      rw [firstBracketP, hguard]
      simp only [Bool.false_eq_true, if_false]
      exact ih p fun b' hb' => hall b' (List.mem_cons_of_mem a hb')

/-- Claim C2: `pressureToHeight` falls back to the international barometric
formula when no Profile is loaded; with a loaded pressure-descending
Profile it linearly interpolates the height of the bracketing pair its scan
finds (the first bracketing adjacent pair), clamps to the nearest
endpoint's height outside the covered pressure range instead of
extrapolating, and on the specification's 3-level Profile maps 925 hPa to
750 m and 50 hPa to 3000 m.  The final conjunct ties the data path to the
full operation. -/
theorem C2_pressureToHeight_spec :
    (∀ (s : SkewT) (p : ℚ), s.soundingData = none →
      pressureToHeight s p = some (some (44330 * (1 - ((p : ℝ) / 1013.25) ^ (0.1903 : ℝ))))) ∧
    (∀ (data : List Level) (p : ℚ) (l u : Level) (p1 p2 h1 h2 : ℚ),
      firstBracketP data p = some (l, u) →
      l.pressure = some p1 → u.pressure = some p2 → p2 < p1 →
      l.height = some h1 → u.height = some h2 →
      pressureToHeightData data p = some (some (h1 + (p - p1) / (p2 - p1) * (h2 - h1)))) ∧
    (∀ (data : List Level) (p : ℚ) (a : Level) (rest : List Level) (p0 : ℚ),
      pressuresDescending (a :: rest) = true → data = a :: rest →
      a.pressure = some p0 → p0 < p →
      pressureToHeightData data p = some a.height) ∧
    (∀ (data : List Level) (p z : ℚ) (h : data ≠ []),
      pressuresDescending data = true → (data.getLast h).pressure = some z → p < z →
      pressureToHeightData data p = some ((data.getLast h).height)) ∧
    pressureToHeightData example3 925 = some (some 750) ∧
    pressureToHeightData example3 50 = some (some 3000) ∧
    (∀ (s : SkewT) (data : List Level) (p : ℚ), s.soundingData = some data →
      pressureToHeight s p = (pressureToHeightData data p).map (Option.map fun q : ℚ => (q : ℝ))) := by
  refine ⟨?_, ?_, ?_, ?_, ?_, ?_, ?_⟩
  · intro s p hnone
    unfold pressureToHeight
    rw [hnone]
  · intro data p l u p1 p2 h1 h2 hfb hp1 hp2 hplt hh1 hh2
    have hscan := bracketScanP_eq data p
    rw [hfb] at hscan
    unfold pressureToHeightData
    rw [hscan]
    simp only [Option.map_some']
    rw [hp1, hp2, hh1, hh2]
    have hne : p2 - p1 ≠ 0 := sub_ne_zero.mpr (ne_of_lt hplt)
    simp [jadd, jmul, jdiv, jsub, hne]
  · intro data p a rest p0 hdesc hdata hp0 hlt
    subst hdata
    have hbound := descending_le_head rest a p0 hdesc hp0
    have hnone : firstBracketP (a :: rest) p = none :=
      firstBracketP_none_of_lt (a :: rest) p fun b hb => by
        obtain ⟨y, hy, hyx⟩ := hbound b hb
        exact ⟨y, hy, lt_of_le_of_lt hyx hlt⟩
    have hscan := bracketScanP_eq (a :: rest) p
    rw [hnone] at hscan
    unfold pressureToHeightData
    rw [hscan]
    simp only [Option.map_none']
    rw [hp0]
    simp [jge, le_of_lt hlt]
  · intro data p z h hdesc hlast hlt
    have hbound := descending_ge_last data h z hdesc hlast
    have hnone : firstBracketP data p = none :=
      firstBracketP_none_of_gt data p fun b hb => by
        obtain ⟨y, hy, hzy⟩ := hbound b hb
        exact ⟨y, hy, lt_of_lt_of_le hlt hzy⟩
    have hscan := bracketScanP_eq data p
    rw [hnone] at hscan
    cases data with
    | nil => exact absurd rfl h
    | cons first rest =>
      unfold pressureToHeightData
      rw [hscan]
      simp only [Option.map_none']
      obtain ⟨x0, hx0, hzx0⟩ :=
        hbound first (List.mem_cons_self first rest)
      have hnotge : jge (some p) first.pressure = false := by
        rw [hx0]
        simp [jge, not_le.mpr (lt_of_lt_of_le hlt hzx0)]
      rw [hnotge]
      simp only [Bool.false_eq_true, if_false]
      have hle : jle (some p) ((first :: rest).getLast (List.cons_ne_nil first rest)).pressure = true := by
        rw [hlast]
        simp [jle, le_of_lt hlt]
      rw [hle]
      simp
  · norm_num [pressureToHeightData, bracketScanP, pressureBracketGuard, example3, exampleLevel,
      jge, jle, jadd, jmul, jdiv, jsub]
  · norm_num [pressureToHeightData, bracketScanP, pressureBracketGuard, example3, exampleLevel,
      jge, jle, jadd, jmul, jdiv, jsub, List.getLast]
  · intro s data p hsome
    unfold pressureToHeight
    rw [hsome]

theorem c2fb : firstBracketP example3 925 = some (exampleLevel 1000 0, exampleLevel 850 1500) := by
  norm_num [firstBracketP, pressureBracketGuard, example3, exampleLevel, jge, jle]

theorem c2lt : (850 : ℚ) < 1000 := by norm_num

/-- Witness for C2: the interpolation conjunct applied to the 3-level
example Profile at 925 hPa. -/
theorem C2_pressureToHeight_spec_witness :
    firstBracketP example3 925 = some (exampleLevel 1000 0, exampleLevel 850 1500) ∧
    (850 : ℚ) < 1000 ∧
    pressureToHeightData example3 925 =
      some (some (0 + (925 - 1000) / (850 - 1000) * (1500 - 0))) :=
  ⟨c2fb, c2lt,
    C2_pressureToHeight_spec.2.1 example3 925 (exampleLevel 1000 0) (exampleLevel 850 1500)
      1000 850 0 1500 c2fb rfl rfl c2lt rfl rfl⟩

theorem pennantLoop_replicate : ∀ (fuel : ℕ) (s : ℚ),
    (pennantLoop fuel s).1 =
      List.replicate (pennantLoop fuel s).1.length BarbPrim.pennant := by
  intro fuel
  induction fuel with
  | zero => intro s; rfl
  | succ n ih =>
    intro s
    rw [pennantLoop]
    by_cases h : (47.5 : ℚ) ≤ s
    · simp only [if_pos h, List.length_cons, List.replicate_succ, List.cons.injEq, true_and]
      exact ih (s - 50)
    · simp [if_neg h]

theorem fullBarbLoop_replicate : ∀ (fuel : ℕ) (s : ℚ),
    (fullBarbLoop fuel s).1 =
      List.replicate (fullBarbLoop fuel s).1.length BarbPrim.fullBarb := by
  intro fuel
  induction fuel with
  | zero => intro s; rfl
  | succ n ih =>
    intro s
    rw [fullBarbLoop]
    by_cases h : (7.5 : ℚ) ≤ s
    · simp only [if_pos h, List.length_cons, List.replicate_succ, List.cons.injEq, true_and]
      exact ih (s - 10)
    · simp [if_neg h]

/-- Claim C3: the encoder is a pure function of its arguments; below
2.5 km/h it emits the calm circle alone, otherwise a staff of length 30
followed, in fixed order, by the pennants of the 50-subtracting loop, the
full barbs of the 10-subtracting loop, and at most one half barb; 25 km/h
gives 2 full barbs + 1 half barb and no pennant, 52 km/h gives exactly one
pennant, and 1.0 km/h gives the calm circle (speeds entered as m/s,
`speedKmh = speedMS * 3.6`). -/
theorem C3_drawWindBarb_spec :
    (∀ (x y direction speedMS : ℚ), 0 ≤ speedMS →
      (speedMS * 3.6 < 2.5 → drawWindBarb x y direction speedMS = [BarbPrim.circle 4]) ∧
      (2.5 ≤ speedMS * 3.6 → ∃ P F H,
        drawWindBarb x y direction speedMS =
          BarbPrim.staff 30 ::
            (List.replicate P BarbPrim.pennant ++ List.replicate F BarbPrim.fullBarb ++
              List.replicate H BarbPrim.halfBarb) ∧ H ≤ 1)) ∧
    drawWindBarb 0 0 0 (125 / 18) =
      [BarbPrim.staff 30, BarbPrim.fullBarb, BarbPrim.fullBarb, BarbPrim.halfBarb] ∧
    drawWindBarb 0 0 0 (130 / 9) = [BarbPrim.staff 30, BarbPrim.pennant] ∧
    drawWindBarb 0 0 0 (5 / 18) = [BarbPrim.circle 4] := by
  refine ⟨?_, ?_, ?_, ?_⟩
  · intro x y direction speedMS _
    constructor
    · intro hcalm
      unfold drawWindBarb
      rw [if_pos hcalm]
    · intro hge
      have hnotlt : ¬ speedMS * 3.6 < 2.5 := not_lt.mpr hge
      unfold drawWindBarb
      rw [if_neg hnotlt]
      refine ⟨(pennantLoop ((⌈speedMS * 3.6⌉).toNat) (speedMS * 3.6)).1.length,
        (fullBarbLoop ((⌈speedMS * 3.6⌉).toNat)
          (pennantLoop ((⌈speedMS * 3.6⌉).toNat) (speedMS * 3.6)).2).1.length,
        if (2.5 : ℚ) ≤ (fullBarbLoop ((⌈speedMS * 3.6⌉).toNat)
          (pennantLoop ((⌈speedMS * 3.6⌉).toNat) (speedMS * 3.6)).2).2 then 1 else 0, ?_, ?_⟩
      · rw [← pennantLoop_replicate, ← fullBarbLoop_replicate]
        dsimp only
        by_cases hh : (2.5 : ℚ) ≤ (fullBarbLoop ((⌈speedMS * 3.6⌉).toNat)
            (pennantLoop ((⌈speedMS * 3.6⌉).toNat) (speedMS * 3.6)).2).2
        · rw [if_pos hh, if_pos hh, List.replicate_one]
        · rw [if_neg hh, if_neg hh, List.replicate_zero]
      · by_cases hh : (2.5 : ℚ) ≤ (fullBarbLoop ((⌈speedMS * 3.6⌉).toNat)
            (pennantLoop ((⌈speedMS * 3.6⌉).toNat) (speedMS * 3.6)).2).2
        · rw [if_pos hh]
        · rw [if_neg hh]
          exact Nat.zero_le 1
  · norm_num [drawWindBarb, pennantLoop, fullBarbLoop]
  · norm_num [drawWindBarb, pennantLoop, fullBarbLoop]
  · norm_num [drawWindBarb]

theorem c3nonneg : (0 : ℚ) ≤ 125 / 18 := by norm_num

theorem c3ge : (2.5 : ℚ) ≤ (125 / 18) * 3.6 := by norm_num

/-- Witness for C3: the structural conjunct applied at 25 km/h. -/
theorem C3_drawWindBarb_spec_witness :
    (0 : ℚ) ≤ 125 / 18 ∧ (2.5 : ℚ) ≤ (125 / 18) * 3.6 ∧
    ∃ P F H,
      drawWindBarb 0 0 0 (125 / 18) =
        BarbPrim.staff 30 ::
          (List.replicate P BarbPrim.pennant ++ List.replicate F BarbPrim.fullBarb ++
            List.replicate H BarbPrim.halfBarb) ∧ H ≤ 1 :=
  ⟨c3nonneg, c3ge, (C3_drawWindBarb_spec.1 0 0 0 (125 / 18) c3nonneg).2 c3ge⟩

/-- Invariant of the closest-Level fold: either nothing has been selected
and every row seen so far has a `NaN` height, or the selection is a seen
row of minimal absolute height distance among the seen rows with non-`NaN`
heights. -/
def closestInv (targetHeight : ℚ) (seen : List Level) (acc : Option Level × Option ℚ) : Prop :=
  (acc = (none, none) ∧ ∀ r ∈ seen, r.height = none) ∨
  (∃ c hc m, acc = (some c, some m) ∧ c ∈ seen ∧ c.height = some hc ∧
    m = |hc - targetHeight| ∧
    ∀ r ∈ seen, ∀ h', r.height = some h' → m ≤ |h' - targetHeight|)

theorem closestInv_step (t : ℚ) (seen : List Level) (acc : Option Level × Option ℚ)
    (row : Level) (h : closestInv t seen acc) :
    closestInv t (seen ++ [row]) (closestStep t acc row) := by
  rcases h with ⟨hacc, hall⟩ | ⟨c, hc, m, hacc, hmem, hch, hm, hmin⟩
  · cases hrh : row.height with
    | none =>
      left
      subst hacc
      constructor
      · simp [closestStep, jabs, jsub, hrh, jltInf]
      · intro r hr
        rcases List.mem_append.mp hr with hr' | hr'
        · exact hall r hr'
        · rw [List.mem_singleton] at hr'; subst hr'; exact hrh
    | some hr =>
      right
      subst hacc
      refine ⟨row, hr, |hr - t|, ?_, List.mem_append_right _ (List.mem_singleton_self row), hrh, rfl, ?_⟩
      · simp [closestStep, jabs, jsub, hrh, jltInf]
      · intro r hrm h' hh'
        rcases List.mem_append.mp hrm with hr' | hr'
        · rw [hall r hr'] at hh'; exact absurd hh' (Option.noConfusion)
        · rw [List.mem_singleton] at hr'
          subst hr'
          rw [hrh] at hh'
          rw [Option.some.inj hh']
  · subst hacc
    cases hrh : row.height with
    | none =>
      right
      refine ⟨c, hc, m, ?_, List.mem_append_left _ hmem, hch, hm, ?_⟩
      · simp [closestStep, jabs, jsub, hrh, jltInf]
      · intro r hrm h' hh'
        rcases List.mem_append.mp hrm with hr' | hr'
        · exact hmin r hr' h' hh'
        · rw [List.mem_singleton] at hr'; subst hr'
          rw [hrh] at hh'; exact absurd hh' (Option.noConfusion)
    | some hr =>
      by_cases hd : |hr - t| < m
      · right
        refine ⟨row, hr, |hr - t|, ?_,
          List.mem_append_right _ (List.mem_singleton_self row), hrh, rfl, ?_⟩
        · simp [closestStep, jabs, jsub, hrh, jltInf, hd]
        · intro r hrm h' hh'
          rcases List.mem_append.mp hrm with hr' | hr'
          · exact le_trans (le_of_lt hd) (hmin r hr' h' hh')
          · rw [List.mem_singleton] at hr'; subst hr'
            rw [hrh] at hh'
            rw [Option.some.inj hh']
      · right
        refine ⟨c, hc, m, ?_, List.mem_append_left _ hmem, hch, hm, ?_⟩
        · simp [closestStep, jabs, jsub, hrh, jltInf, hd]
        · intro r hrm h' hh'
          rcases List.mem_append.mp hrm with hr' | hr'
          · exact hmin r hr' h' hh'
          · rw [List.mem_singleton] at hr'; subst hr'
            rw [hrh] at hh'
            rw [← Option.some.inj hh']
            exact not_lt.mp hd

theorem closestInv_foldl (t : ℚ) : ∀ (L : List Level) (acc : Option Level × Option ℚ)
    (seen : List Level), closestInv t seen acc →
    closestInv t (seen ++ L) (L.foldl (closestStep t) acc) := by
  intro L
  induction L with
  | nil => intro acc seen h; simpa using h
  | cons r L2 ih =>
    intro acc seen h
    have h2 := ih (closestStep t acc r) (seen ++ [r]) (closestInv_step t seen acc r h)
    simpa using h2

/-- Claim C4 (amended): when no adjacent pair brackets the target,
`interpolateDataAtHeight` returns a stored Level of minimal absolute height
distance among the Levels with non-`NaN` height, and it returns `null`
exactly when no Level has a non-`NaN` height — not only for the empty
Profile: rows whose height is `NaN` can never be selected because
`Math.abs(NaN - t) < minDistance` is false. -/
theorem C4_interpolate_fallback (data : List Level) (targetHeight : ℚ)
    (hscan : interpScan data targetHeight = none) :
    (interpolateDataAtHeight data targetHeight = none ↔ ∀ r ∈ data, r.height = none) ∧
    (∀ lvl, interpolateDataAtHeight data targetHeight = some lvl →
      lvl ∈ data ∧ ∃ hv, lvl.height = some hv ∧
        ∀ r ∈ data, ∀ h', r.height = some h' →
          |hv - targetHeight| ≤ |h' - targetHeight|) := by
  have hinv := closestInv_foldl targetHeight data (none, none) []
    (Or.inl ⟨rfl, by intro r hr; simp at hr⟩)
  simp only [List.nil_append] at hinv
  have hival : interpolateDataAtHeight data targetHeight =
      (data.foldl (closestStep targetHeight) (none, none)).1 := by
    unfold interpolateDataAtHeight
    rw [hscan]
  constructor
  · rw [hival]
    constructor
    · intro hnone
      rcases hinv with ⟨_, hall⟩ | ⟨c, hc, m, hacc, _, _, _, _⟩
      · exact hall
      · rw [hacc] at hnone
        exact absurd hnone (by simp)
    · intro hall
      rcases hinv with ⟨hacc, _⟩ | ⟨c, hc, m, hacc, hmem, hch, _, _⟩
      · rw [hacc]
      · rw [hall c hmem] at hch
        exact absurd hch Option.noConfusion
  · intro lvl hsome
    rw [hival] at hsome
    rcases hinv with ⟨hacc, _⟩ | ⟨c, hc, m, hacc, hmem, hch, hm, hmin⟩
    · rw [hacc] at hsome
      exact absurd hsome (by simp)
    · rw [hacc] at hsome
      simp only at hsome
      have hcl : c = lvl := Option.some.inj hsome
      subst hcl
      refine ⟨hmem, hc, hch, ?_⟩
      intro r hr h' hh'
      have := hmin r hr h' hh'
      rwa [hm] at this

/-- A Level with a `NaN` height and otherwise present data. -/
def nanHeightLevel : Level :=
  { pressure := some 500, height := none, temp := some 1, dewpoint := some 1,
    windSpeed := some 1, windDir := some 1 }

/-- Counterexample to C4 as stated: a one-Level Profile whose only height
is `NaN` has no bracketing pair, its closest-point scan never selects a
row, and `interpolateDataAtHeight` returns `null` although the Profile is
not empty. -/
theorem C4_counterexample :
    interpolateDataAtHeight [nanHeightLevel] 0 = none ∧
    ([nanHeightLevel] : List Level) ≠ [] :=
  ⟨rfl, by simp⟩

theorem c4scan : interpScan [exampleLevel 1000 0, exampleLevel 850 100] 200 = none := by
  norm_num [interpScan, heightBracketGuard, jge, jle, jmin, jmax, exampleLevel]

/-- Witness for C4 at a two-Level profile with target height 200 m above
both stored heights (0 m and 100 m): no pair brackets, and the theorem
applies. -/
theorem C4_interpolate_fallback_witness :
    interpScan [exampleLevel 1000 0, exampleLevel 850 100] 200 = none ∧
    ((interpolateDataAtHeight [exampleLevel 1000 0, exampleLevel 850 100] 200 = none ↔
        ∀ r ∈ [exampleLevel 1000 0, exampleLevel 850 100], r.height = none) ∧
      (∀ lvl, interpolateDataAtHeight [exampleLevel 1000 0, exampleLevel 850 100] 200 = some lvl →
        lvl ∈ [exampleLevel 1000 0, exampleLevel 850 100] ∧ ∃ hv, lvl.height = some hv ∧
          ∀ r ∈ [exampleLevel 1000 0, exampleLevel 850 100], ∀ h', r.height = some h' →
            |hv - 200| ≤ |h' - 200|)) :=
  ⟨c4scan, C4_interpolate_fallback [exampleLevel 1000 0, exampleLevel 850 100] 200 c4scan⟩

theorem interpScan_eq (data : List Level) (targetHeight : ℚ) :
    interpScan data targetHeight =
      (firstBracket data targetHeight).map fun pr => mkInterp pr.1 pr.2 targetHeight := by
  induction data with
  | nil => rfl
  | cons a rest ih =>
    cases rest with
    | nil => rfl
    | cons b rest2 =>
      cases hg : heightBracketGuard a b targetHeight <;>
        simp [interpScan, firstBracket, hg, ih]

theorem jinterp_none_iff (frac : ℚ) (a b : JNum) :
    jadd a (jmul (some frac) (jsub b a)) = none ↔ (a = none ∨ b = none) := by
  cases a <;> cases b <;> simp [jadd, jmul, jsub]

theorem jinterp_some (frac a b : ℚ) :
    jadd (some a) (jmul (some frac) (jsub (some b) (some a))) =
      some (a + frac * (b - a)) := rfl

/-- Claim C5 (amended): for the bracketing pair the scan selects, and
provided that pair's two heights are distinct (so that the shared ratio is
not the `NaN` `0/0`), a `NaN` in one attribute of either Level contaminates
exactly that attribute of the result: each output attribute is `NaN` iff
one of its two inputs is, and attributes with both inputs present are
interpolated with the common height ratio; nothing throws.  When the two
heights coincide the ratio itself is `NaN` and poisons every interpolated
attribute (see the counterexample). -/
theorem C5_interpolate_nan_isolation (data : List Level) (targetHeight : ℚ)
    (l u : Level) (h1 h2 : ℚ) (hfb : firstBracket data targetHeight = some (l, u))
    (hh1 : l.height = some h1) (hh2 : u.height = some h2) (hne : h1 ≠ h2) :
    interpolateDataAtHeight data targetHeight = some (mkInterp l u targetHeight) ∧
    (mkInterp l u targetHeight).height = some targetHeight ∧
    ((mkInterp l u targetHeight).pressure = none ↔ (l.pressure = none ∨ u.pressure = none)) ∧
    ((mkInterp l u targetHeight).temp = none ↔ (l.temp = none ∨ u.temp = none)) ∧
    ((mkInterp l u targetHeight).dewpoint = none ↔ (l.dewpoint = none ∨ u.dewpoint = none)) ∧
    ((mkInterp l u targetHeight).windSpeed = none ↔ (l.windSpeed = none ∨ u.windSpeed = none)) ∧
    ((mkInterp l u targetHeight).windDir = none ↔ (l.windDir = none ∨ u.windDir = none)) ∧
    (∀ a b : ℚ, l.pressure = some a → u.pressure = some b →
      (mkInterp l u targetHeight).pressure =
        some (a + (targetHeight - h1) / (h2 - h1) * (b - a))) ∧
    (∀ a b : ℚ, l.temp = some a → u.temp = some b →
      (mkInterp l u targetHeight).temp =
        some (a + (targetHeight - h1) / (h2 - h1) * (b - a))) ∧
    (∀ a b : ℚ, l.dewpoint = some a → u.dewpoint = some b →
      (mkInterp l u targetHeight).dewpoint =
        some (a + (targetHeight - h1) / (h2 - h1) * (b - a))) ∧
    (∀ a b : ℚ, l.windSpeed = some a → u.windSpeed = some b →
      (mkInterp l u targetHeight).windSpeed =
        some (a + (targetHeight - h1) / (h2 - h1) * (b - a))) ∧
    (∀ a b : ℚ, l.windDir = some a → u.windDir = some b →
      (mkInterp l u targetHeight).windDir =
        some (a + (targetHeight - h1) / (h2 - h1) * (b - a))) := by
  have hdne : h2 - h1 ≠ 0 := sub_ne_zero.mpr (Ne.symm hne)
  have hfrac : jdiv (jsub (some targetHeight) l.height) (jsub u.height l.height) =
      some ((targetHeight - h1) / (h2 - h1)) := by
    rw [hh1, hh2]
    simp [jdiv, jsub, hdne]
  refine ⟨?_, ?_, ?_, ?_, ?_, ?_, ?_, ?_, ?_, ?_, ?_, ?_⟩
  · unfold interpolateDataAtHeight
    rw [interpScan_eq, hfb]
    rfl
  · rfl
  · rw [show (mkInterp l u targetHeight).pressure =
        jadd l.pressure (jmul (some ((targetHeight - h1) / (h2 - h1)))
          (jsub u.pressure l.pressure)) by simp [mkInterp, hfrac]]
    exact jinterp_none_iff _ _ _
  · rw [show (mkInterp l u targetHeight).temp =
        jadd l.temp (jmul (some ((targetHeight - h1) / (h2 - h1)))
          (jsub u.temp l.temp)) by simp [mkInterp, hfrac]]
    exact jinterp_none_iff _ _ _
  · rw [show (mkInterp l u targetHeight).dewpoint =
        jadd l.dewpoint (jmul (some ((targetHeight - h1) / (h2 - h1)))
          (jsub u.dewpoint l.dewpoint)) by simp [mkInterp, hfrac]]
    exact jinterp_none_iff _ _ _
  · rw [show (mkInterp l u targetHeight).windSpeed =
        jadd l.windSpeed (jmul (some ((targetHeight - h1) / (h2 - h1)))
          (jsub u.windSpeed l.windSpeed)) by simp [mkInterp, hfrac]]
    exact jinterp_none_iff _ _ _
  · rw [show (mkInterp l u targetHeight).windDir =
        jadd l.windDir (jmul (some ((targetHeight - h1) / (h2 - h1)))
          (jsub u.windDir l.windDir)) by simp [mkInterp, hfrac]]
    exact jinterp_none_iff _ _ _
  · intro a b ha hb
    simp only [mkInterp, hfrac, ha, hb]
    exact jinterp_some _ _ _
  · intro a b ha hb
    simp only [mkInterp, hfrac, ha, hb]
    exact jinterp_some _ _ _
  · intro a b ha hb
    simp only [mkInterp, hfrac, ha, hb]
    exact jinterp_some _ _ _
  · intro a b ha hb
    simp only [mkInterp, hfrac, ha, hb]
    exact jinterp_some _ _ _
  · intro a b ha hb
    simp only [mkInterp, hfrac, ha, hb]
    exact jinterp_some _ _ _

/-- The lower Level of the C5 counterexample: `NaN` temperature only, at
height 1000 m. -/
def c5lower : Level :=
  { pressure := some 850, height := some 1000, temp := none, dewpoint := some 5,
    windSpeed := some 3, windDir := some 90 }

/-- The upper Level of the C5 counterexample: all attributes present, at
the same height 1000 m. -/
def c5upper : Level :=
  { pressure := some 840, height := some 1000, temp := some 2, dewpoint := some 4,
    windSpeed := some 2, windDir := some 80 }

/-- Counterexample to C5 as stated: the pair brackets `targetHeight = 1000`
(its height interval is the single point 1000), only the lower temperature
is `NaN`, both pressures are present — yet the interpolated pressure is
`NaN`, because the shared ratio is the `NaN` `0/0` of the equal-height
pair.  So a `NaN` in one attribute is not confined to that attribute. -/
theorem C5_counterexample :
    firstBracket [c5lower, c5upper] 1000 = some (c5lower, c5upper) ∧
    c5lower.temp = none ∧ c5lower.pressure = some 850 ∧ c5upper.pressure = some 840 ∧
    c5lower.height = some 1000 ∧ c5upper.height = some 1000 ∧
    interpolateDataAtHeight [c5lower, c5upper] 1000 = some (mkInterp c5lower c5upper 1000) ∧
    (mkInterp c5lower c5upper 1000).pressure = none := by
  refine ⟨?_, rfl, rfl, rfl, rfl, rfl, ?_, ?_⟩
  · norm_num [firstBracket, heightBracketGuard, jge, jle, jmin, jmax, c5lower, c5upper]
  · unfold interpolateDataAtHeight
    rw [interpScan_eq]
    rw [show firstBracket [c5lower, c5upper] 1000 = some (c5lower, c5upper) by
      norm_num [firstBracket, heightBracketGuard, jge, jle, jmin, jmax, c5lower, c5upper]]
    rfl
  · norm_num [mkInterp, jdiv, jsub, jadd, jmul, c5lower, c5upper]

theorem c5fb : firstBracket [exampleLevel 1000 0, exampleLevel 850 1500] 750 =
    some (exampleLevel 1000 0, exampleLevel 850 1500) := by
  norm_num [firstBracket, heightBracketGuard, jge, jle, jmin, jmax, exampleLevel]

theorem c5hne : (0 : ℚ) ≠ 1500 := by norm_num

/-- Witness for C5 at a bracketing pair with distinct heights 0 m and
1500 m and target height 750 m. -/
theorem C5_interpolate_nan_isolation_witness :
    firstBracket [exampleLevel 1000 0, exampleLevel 850 1500] 750 =
      some (exampleLevel 1000 0, exampleLevel 850 1500) ∧
    (0 : ℚ) ≠ 1500 ∧
    interpolateDataAtHeight [exampleLevel 1000 0, exampleLevel 850 1500] 750 =
      some (mkInterp (exampleLevel 1000 0) (exampleLevel 850 1500) 750) ∧
    ((mkInterp (exampleLevel 1000 0) (exampleLevel 850 1500) 750).pressure = none ↔
      ((exampleLevel 1000 0).pressure = none ∨ (exampleLevel 850 1500).pressure = none)) :=
  ⟨c5fb, c5hne,
    (C5_interpolate_nan_isolation [exampleLevel 1000 0, exampleLevel 850 1500] 750
      (exampleLevel 1000 0) (exampleLevel 850 1500) 0 1500 c5fb rfl rfl c5hne).1,
    (C5_interpolate_nan_isolation [exampleLevel 1000 0, exampleLevel 850 1500] 750
      (exampleLevel 1000 0) (exampleLevel 850 1500) 0 1500 c5fb rfl rfl c5hne).2.2.1⟩

theorem tempVertexRows_mem (s : SkewT) (data : List Level) (row : Level) :
    row ∈ tempVertexRows s data ↔ row ∈ data ∧
      row.temp.isNone = false ∧ jlt row.pressure (some s.pMin) = false ∧
      jgt row.pressure (some s.pMax) = false ∧ jlt row.height (some s.hMin) = false ∧
      jgt row.height (some s.hMax) = false := by
  unfold tempVertexRows
  rw [List.mem_filter]
  simp only [Bool.and_eq_true, Bool.not_eq_true', Bool.or_eq_false_iff]
  tauto

theorem dewpointVertexRows_mem (s : SkewT) (data : List Level) (row : Level) :
    row ∈ dewpointVertexRows s data ↔ row ∈ data ∧
      row.dewpoint.isNone = false ∧ jlt row.pressure (some s.pMin) = false ∧
      jgt row.pressure (some s.pMax) = false ∧ jlt row.height (some s.hMin) = false ∧
      jgt row.height (some s.hMax) = false := by
  unfold dewpointVertexRows
  rw [List.mem_filter]
  simp only [Bool.and_eq_true, Bool.not_eq_true', Bool.or_eq_false_iff]
  tauto

/-- Claim C6 (amended): after `setHeightRange(500, 4500)` the temperature
and dewpoint polylines exclude every Level whose (non-`NaN`) height is
below 500 m or above 4500 m, every Level whose (non-`NaN`) pressure is
outside `[pMin, pMax]`, and every Level whose plotted attribute
(temperature resp. dewpoint) is `NaN`; excluded Levels contribute no vertex
at all (skipped, not clamped), every plotted vertex row is a stored row,
and the draw leaves the state — in particular the stored Profile —
unchanged apart from storing the passed reference.  A Level whose pressure
or height is `NaN` is NOT excluded by the bounds checks, because every
comparison against `NaN` is false (see the counterexample). -/
theorem C6_zoom_filter (s : SkewT) (data : List Level) :
    (∀ row ∈ data, ∀ hv : ℚ, row.height = some hv → (hv < 500 ∨ 4500 < hv) →
      row ∉ tempVertexRows (setHeightRange s 500 4500) data ∧
      row ∉ dewpointVertexRows (setHeightRange s 500 4500) data) ∧
    (∀ row ∈ data, ∀ pv : ℚ, row.pressure = some pv → (pv < s.pMin ∨ s.pMax < pv) →
      row ∉ tempVertexRows (setHeightRange s 500 4500) data ∧
      row ∉ dewpointVertexRows (setHeightRange s 500 4500) data) ∧
    (∀ row, row.temp = none → row ∉ tempVertexRows (setHeightRange s 500 4500) data) ∧
    (∀ row, row.dewpoint = none → row ∉ dewpointVertexRows (setHeightRange s 500 4500) data) ∧
    (∀ row ∈ tempVertexRows (setHeightRange s 500 4500) data, row ∈ data) ∧
    (∀ row ∈ dewpointVertexRows (setHeightRange s 500 4500) data, row ∈ data) ∧
    (drawRun (setHeightRange s 500 4500) (some data)).1 =
      { setHeightRange s 500 4500 with soundingData := some data } := by
  have hhmin : (setHeightRange s 500 4500).hMin = 500 := rfl
  have hhmax : (setHeightRange s 500 4500).hMax = 4500 := rfl
  refine ⟨?_, ?_, ?_, ?_, ?_, ?_, rfl⟩
  · intro row _ hv hrh hcase
    constructor
    · intro hmem
      obtain ⟨-, -, -, -, hh1, hh2⟩ := (tempVertexRows_mem _ _ _).mp hmem
      rw [hhmin, hrh] at hh1
      rw [hhmax, hrh] at hh2
      simp only [jlt, jgt, decide_eq_false_iff_not] at hh1 hh2
      rcases hcase with hc | hc
      · exact hh1 hc
      · exact hh2 hc
    · intro hmem
      obtain ⟨-, -, -, -, hh1, hh2⟩ := (dewpointVertexRows_mem _ _ _).mp hmem
      rw [hhmin, hrh] at hh1
      rw [hhmax, hrh] at hh2
      simp only [jlt, jgt, decide_eq_false_iff_not] at hh1 hh2
      rcases hcase with hc | hc
      · exact hh1 hc
      · exact hh2 hc
  · intro row _ pv hrp hcase
    constructor
    · intro hmem
      obtain ⟨-, -, hp1, hp2, -, -⟩ := (tempVertexRows_mem _ _ _).mp hmem
      rw [hrp] at hp1 hp2
      simp only [jlt, jgt, decide_eq_false_iff_not] at hp1 hp2
      rcases hcase with hc | hc
      · exact hp1 hc
      · exact hp2 hc
    · intro hmem
      obtain ⟨-, -, hp1, hp2, -, -⟩ := (dewpointVertexRows_mem _ _ _).mp hmem
      rw [hrp] at hp1 hp2
      simp only [jlt, jgt, decide_eq_false_iff_not] at hp1 hp2
      rcases hcase with hc | hc
      · exact hp1 hc
      · exact hp2 hc
  · intro row ht hmem
    obtain ⟨-, hnone, -, -, -, -⟩ := (tempVertexRows_mem _ _ _).mp hmem
    rw [ht] at hnone
    exact absurd hnone (by simp)
  · intro row ht hmem
    obtain ⟨-, hnone, -, -, -, -⟩ := (dewpointVertexRows_mem _ _ _).mp hmem
    rw [ht] at hnone
    exact absurd hnone (by simp)
  · intro row hmem
    exact ((tempVertexRows_mem _ _ _).mp hmem).1
  · intro row hmem
    exact ((dewpointVertexRows_mem _ _ _).mp hmem).1

/-- A Level with a `NaN` pressure but valid height and plotted values. -/
def nanPressureLevel : Level :=
  { pressure := none, height := some 1000, temp := some 20, dewpoint := some 10,
    windSpeed := some 0, windDir := some 0 }

/-- Counterexample to C6 as stated: a Level with a `NaN` pressure (a `NaN`
value) is NOT skipped — `NaN < pMin` and `NaN > pMax` are both false and
its temperature is present, so it stays in the temperature polyline's
vertex set after `setHeightRange(500, 4500)`. -/
theorem C6_counterexample :
    nanPressureLevel.pressure = none ∧
    nanPressureLevel ∈
      tempVertexRows (setHeightRange (SkewT.init 800 600) 500 4500) [nanPressureLevel] := by
  refine ⟨rfl, ?_⟩
  rw [tempVertexRows_mem]
  refine ⟨List.mem_singleton_self _, rfl, rfl, rfl, ?_, ?_⟩
  · show jlt (some 1000) (some 500) = false
    norm_num [jlt]
  · show jgt (some 1000) (some 4500) = false
    norm_num [jgt]

theorem c6mem : exampleLevel 1000 100 ∈ [exampleLevel 1000 100] :=
  List.mem_singleton_self _

theorem c6case : (100 : ℚ) < 500 ∨ (4500 : ℚ) < 100 := Or.inl (by norm_num)

/-- Witness for C6: a Level at height 100 m is excluded from both polylines
after zooming to 500–4500 m. -/
theorem C6_zoom_filter_witness :
    exampleLevel 1000 100 ∈ [exampleLevel 1000 100] ∧
    ((100 : ℚ) < 500 ∨ (4500 : ℚ) < 100) ∧
    exampleLevel 1000 100 ∉
      tempVertexRows (setHeightRange (SkewT.init 800 600) 500 4500) [exampleLevel 1000 100] ∧
    exampleLevel 1000 100 ∉
      dewpointVertexRows (setHeightRange (SkewT.init 800 600) 500 4500) [exampleLevel 1000 100] :=
  ⟨c6mem, c6case,
    (C6_zoom_filter (SkewT.init 800 600) [exampleLevel 1000 100]).1
      (exampleLevel 1000 100) c6mem 100 rfl c6case⟩

theorem forLoopDown_mem : ∀ (fuel : ℕ) (v stop step q : ℚ), 0 < step →
    v - step * fuel < stop →
    (q ∈ forLoopDown fuel v stop step ↔ ∃ k : ℕ, q = v - step * k ∧ stop ≤ q) := by
  intro fuel
  induction fuel with
  | zero =>
    intro v stop step q hstep hfuel
    simp only [Nat.cast_zero, mul_zero, sub_zero] at hfuel
    simp only [forLoopDown, List.not_mem_nil, false_iff, not_exists, not_and]
    intro k hq
    have hk : (0 : ℚ) ≤ step * k := by positivity
    intro hstop
    have : q ≤ v := by rw [hq]; linarith
    linarith
  | succ n ih =>
    intro v stop step q hstep hfuel
    rw [forLoopDown]
    by_cases hguard : stop ≤ v
    · rw [if_pos hguard]
      have hfuel2 : (v - step) - step * n < stop := by
        push_cast at hfuel ⊢
        linarith
      rw [List.mem_cons, ih (v - step) stop step q hstep hfuel2]
      constructor
      · rintro (rfl | ⟨k, hq, hstop⟩)
        · exact ⟨0, by simp, hguard⟩
        · exact ⟨k + 1, by push_cast; linarith, hstop⟩
      · rintro ⟨k, hq, hstop⟩
        cases k with
        | zero => left; simp at hq; exact hq
        | succ k2 =>
          right
          exact ⟨k2, by push_cast at hq ⊢; linarith, hstop⟩
    · rw [if_neg hguard]
      simp only [List.not_mem_nil, false_iff, not_exists, not_and]
      intro k hq hstop
      have hk : (0 : ℚ) ≤ step * k := by positivity
      have : q ≤ v := by rw [hq]; linarith
      exact hguard (le_trans hstop this)

theorem adiabatSamples_fuel (s : SkewT) :
    s.pMax - 5 * (((⌈s.pMax - s.pMin⌉).toNat + 1 : ℕ) : ℚ) < s.pMin := by
  set x := s.pMax - s.pMin with hx
  have h1 : x ≤ ((⌈x⌉ : ℤ) : ℚ) := Int.le_ceil x
  have h2 : ((⌈x⌉ : ℤ) : ℚ) ≤ (((⌈x⌉).toNat : ℤ) : ℚ) := by
    exact_mod_cast Int.self_le_toNat ⌈x⌉
  have h3 : (0 : ℚ) ≤ ((⌈x⌉).toNat : ℚ) := by positivity
  have h4 : x ≤ ((⌈x⌉).toNat : ℚ) := by
    calc x ≤ ((⌈x⌉ : ℤ) : ℚ) := h1
      _ = (((⌈x⌉ : ℤ) : ℚ)) := rfl
      _ ≤ ((⌈x⌉).toNat : ℚ) := by exact_mod_cast h2
  push_cast
  linarith

theorem adiabatPressureSamples_mem (s : SkewT) (q : ℚ) :
    q ∈ adiabatPressureSamples s ↔ ∃ k : ℕ, q = s.pMax - 5 * k ∧ s.pMin ≤ q := by
  exact forLoopDown_mem _ s.pMax s.pMin 5 q (by norm_num) (adiabatSamples_fuel s)

/-- Claim C8: the dry-adiabat generator iterates the potential temperature
through 200..500 K in steps of 10, sweeps the pressure from `pMax` down
toward `pMin` in 5 hPa steps, computes the Poisson temperature
`theta * (p/1000)^0.286 - 273.15` at each sample, keeps exactly the samples
within the tolerance band (skipping, not clamping, those with
`T < tMin - 20` or `T > tMax + 40`), and at `theta = 300 K`,
`p = 1000 hPa` the computed temperature is 26.85 degrees Celsius. -/
theorem C8_dryAdiabats_spec :
    dryThetas =
      [200, 210, 220, 230, 240, 250, 260, 270, 280, 290, 300, 310, 320, 330, 340, 350,
       360, 370, 380, 390, 400, 410, 420, 430, 440, 450, 460, 470, 480, 490, 500] ∧
    (∀ (s : SkewT) (theta : ℚ) (t : ℝ) (p : ℚ),
      (t, p) ∈ dryAdiabatCurve s theta ↔
        ((∃ k : ℕ, p = s.pMax - 5 * k) ∧ s.pMin ≤ p ∧ t = dryAdiabatTemp theta p ∧
          ¬(t < (s.tMin : ℝ) - 20 ∨ t > (s.tMax : ℝ) + 40))) ∧
    dryAdiabatTemp 300 1000 = 26.85 := by
  refine ⟨?_, ?_, ?_⟩
  · norm_num [dryThetas, forLoopUp]
  · intro s theta t p
    unfold dryAdiabatCurve
    rw [List.mem_filterMap]
    constructor
    · rintro ⟨a, ha, heq⟩
      by_cases hc : dryAdiabatTemp theta a < (s.tMin : ℝ) - 20 ∨
          dryAdiabatTemp theta a > (s.tMax : ℝ) + 40
      · rw [if_pos hc] at heq
        exact absurd heq Option.noConfusion
      · rw [if_neg hc] at heq
        obtain ⟨ht, hp⟩ := Prod.mk.injEq .. ▸ Option.some.inj heq
        subst hp
        obtain ⟨k, hk, hge⟩ := (adiabatPressureSamples_mem s a).mp ha
        exact ⟨⟨k, hk⟩, hge, ht.symm, ht ▸ hc⟩
    · rintro ⟨⟨k, hk⟩, hge, ht, hc⟩
      subst ht
      refine ⟨p, (adiabatPressureSamples_mem s p).mpr ⟨k, hk, hge⟩, ?_⟩
      dsimp only
      rw [if_neg hc]
  · unfold dryAdiabatTemp
    have h1 : (((1000 : ℚ) : ℝ) / 1000) = 1 := by norm_num
    rw [h1, Real.one_rpow]
    norm_num
